import Mathlib

/-!
Verification of the concurrent job-processing and real-time learning core.

Shallow embedding of:
- src/core/job_queue.py   (JobQueue: enqueue / claim_next / complete / fail /
  pause / resume / cancel over a SQLite jobs table, modelled as a list of rows
  in rowid order; each SQL statement is one atomic step)
- src/core/worker.py      (Worker._process_job / _run_scan / stop /
  _handle_shutdown, modelled as a small-step transition system)
- src/core/event_buffer.py (EventBuffer: insert_event / _maybe_prune /
  get_mismatch_summary over the quantum_events table)
- src/inference/online_learner.py (OnlineBrain.learn / __init__ / _load_model;
  the River model pipeline is external, so it is abstracted as a pair of
  operations predict_one / learn_one over an opaque model type)
- src/inference/mismatch_detector.py (MismatchDetector detectors and
  scan_quantum)

Machine floats are modelled as rationals, timestamps as naturals or rationals.
-/

namespace Spec2Proof

set_option maxRecDepth 4000

/- ══════════════════════════════════════════════════════════════════════════
   Job queue data model (src/core/job_queue.py, class JobStatus and Job)
   ══════════════════════════════════════════════════════════════════════════ -/

/-- Job lifecycle states (job_queue.py lines 26-33). -/
inductive JStatus where
  | pending
  | running
  | paused
  | completed
  | failed
  | cancelled
deriving DecidableEq

/-- One row of the jobs table (job_queue.py lines 39-67 and the schema at
lines 130-144).  Timestamps are naturals: `datetime.now().isoformat()` strings
compare chronologically, which is all the queue uses them for. -/
structure Job where
  id : Nat
  projectId : String
  status : JStatus
  priority : Int
  createdAt : Nat
  startedAt : Option Nat
  completedAt : Option Nat
  progressPercent : Int
  progressMessage : String
  errorMessage : Option String
  workerId : Option String
deriving DecidableEq

/-- The literal progress messages written by the queue. -/
def waitingMsg : String := "Waiting to start"

def startingMsg : String := "Starting..."

def completedMsg : String := "Completed"

def failedMsg : String := "Failed"

def cancelledMsg : String := "Cancelled"

/-- `UPDATE jobs SET ... WHERE id = ?`: rewrite every row whose id matches
(ids are unique in a real table since id is the INTEGER PRIMARY KEY, but the
statement itself is a map over rows). -/
def updateById (q : List Job) (i : Nat) (f : Job → Job) : List Job :=
  q.map fun j => if j.id = i then f j else j

/-- Strict "comes earlier in ORDER BY priority DESC, created_at ASC":
`a` beats `b` when `a` must appear strictly before `b`. -/
def beats (a b : Job) : Bool :=
  decide (b.priority < a.priority) ||
    (decide (a.priority = b.priority) && decide (a.createdAt < b.createdAt))

/-- `SELECT * FROM jobs WHERE status = 'pending' ORDER BY priority DESC,
created_at ASC LIMIT 1` (claim_next, lines 196-204): the first pending row in
the sort order, scanning the table in rowid order and keeping the earlier row
unless a later one strictly beats it (ties keep table order). -/
def selectNext : List Job → Option Job
  | [] => none
  | j :: rest =>
    if j.status = .pending then
      match selectNext rest with
      | none => some j
      | some b => if beats b j then some b else some j
    else selectNext rest

/-- The claiming UPDATE (claim_next, lines 210-220): sets status running,
started_at, worker_id and progress_message, conditioned only on the row id —
there is no `AND status = 'pending'` guard in the source. -/
def claimUpdate (w : String) (now : Nat) (j : Job) : Job :=
  { j with status := .running, startedAt := some now, workerId := some w,
           progressMessage := startingMsg }

/-- The Job object constructed and returned by claim_next (lines 222-230);
fields not passed take the dataclass defaults. -/
def claimedJob (row : Job) (w : String) (now : Nat) : Job :=
  { id := row.id, projectId := row.projectId, status := .running,
    priority := row.priority, createdAt := row.createdAt,
    startedAt := some now, completedAt := none,
    progressPercent := 0, progressMessage := waitingMsg,
    errorMessage := none, workerId := some w }

/-- claim_next executed atomically, i.e. with the SELECT and the UPDATE done
under the instance lock with no interleaving (job_queue.py lines 180-234). -/
def claimNext (q : List Job) (w : String) (now : Nat) : Option Job × List Job :=
  match selectNext q with
  | none => (none, q)
  | some row => (some (claimedJob row w now), updateById q row.id (claimUpdate w now))

/-- A sequence of atomic claim_next calls; returns the claimed jobs in order
together with the final table. -/
def claimSeq : List Job → List (String × Nat) → List Job × List Job
  | q, [] => ([], q)
  | q, (w, t) :: rest =>
    match claimNext q w t with
    | (none, q₁) => claimSeq q₁ rest
    | (some j, q₁) =>
      let r := claimSeq q₁ rest
      (j :: r.1, r.2)

/- ══════════════════════════════════════════════════════════════════════════
   Terminal transitions (complete / fail / cancel) and get_job
   ══════════════════════════════════════════════════════════════════════════ -/

/-- The row rewrite performed by complete (lines 265-273). -/
def completeUpdate (now : Nat) (j : Job) : Job :=
  { j with status := .completed, completedAt := some now,
           progressPercent := 100, progressMessage := completedMsg }

/-- The row rewrite performed by fail (lines 284-292). -/
def failUpdate (msg : String) (now : Nat) (j : Job) : Job :=
  { j with status := .failed, completedAt := some now,
           errorMessage := some msg, progressMessage := failedMsg }

/-- The row rewrite performed by cancel (lines 329-337). -/
def cancelUpdate (now : Nat) (j : Job) : Job :=
  { j with status := .cancelled, completedAt := some now,
           progressMessage := cancelledMsg }

/-- JobQueue.complete: unconditional UPDATE by id, no status guard. -/
def completeJob (q : List Job) (i : Nat) (now : Nat) : List Job :=
  updateById q i (completeUpdate now)

/-- JobQueue.fail: unconditional UPDATE by id, no status guard. -/
def failJob (q : List Job) (i : Nat) (msg : String) (now : Nat) : List Job :=
  updateById q i (failUpdate msg now)

/-- JobQueue.cancel: unconditional UPDATE by id, no status guard. -/
def cancelJob (q : List Job) (i : Nat) (now : Nat) : List Job :=
  updateById q i (cancelUpdate now)

/-- The literal message written by pause. -/
def pausedMsg : String := "Paused"

/-- JobQueue.pause (lines 303-307): sets status paused by id, no guard. -/
def pauseJob (q : List Job) (i : Nat) : List Job :=
  updateById q i fun j => { j with status := .paused, progressMessage := pausedMsg }

/-- JobQueue.get_job (lines 341-350): `SELECT * FROM jobs WHERE id = ?`,
first matching row. -/
def getJob (q : List Job) (i : Nat) : Option Job :=
  q.find? fun j => j.id == i

/-- Terminal statuses in the sense of the spec (completed / failed /
cancelled). -/
def isTerminal (s : JStatus) : Bool :=
  s == .completed || s == .failed || s == .cancelled

/- ══════════════════════════════════════════════════════════════════════════
   C1: claim_next lemmas
   ══════════════════════════════════════════════════════════════════════════ -/

theorem selectNext_mem_pending :
    ∀ {q : List Job} {j : Job}, selectNext q = some j → j ∈ q ∧ j.status = .pending := by
  intro q
  induction q with
  | nil => intro j h; simp [selectNext] at h
  | cons a rest ih =>
    intro j h
    rw [selectNext] at h
    by_cases ha : a.status = .pending
    · rw [if_pos ha] at h
      cases hr : selectNext rest with
      | none =>
        rw [hr] at h
        change some a = some j at h
        simp only [Option.some.injEq] at h
        exact ⟨h ▸ List.mem_cons_self a rest, h ▸ ha⟩
      | some b =>
        rw [hr] at h
        change (if beats b a = true then some b else some a) = some j at h
        by_cases hb : beats b a
        · rw [if_pos hb] at h
          simp only [Option.some.injEq] at h
          obtain ⟨hm, hp⟩ := ih hr
          exact ⟨h ▸ List.mem_cons_of_mem a hm, h ▸ hp⟩
        · rw [if_neg hb] at h
          simp only [Option.some.injEq] at h
          exact ⟨h ▸ List.mem_cons_self a rest, h ▸ ha⟩
    · rw [if_neg ha] at h
      obtain ⟨hm, hp⟩ := ih h
      exact ⟨List.mem_cons_of_mem a hm, hp⟩

theorem claimNext_eq_none {q : List Job} {w : String} {t : Nat}
    (h : selectNext q = none) : claimNext q w t = (none, q) := by
  simp [claimNext, h]

theorem claimNext_eq_some {q : List Job} {w : String} {t : Nat} {row : Job}
    (h : selectNext q = some row) :
    claimNext q w t = (some (claimedJob row w t), updateById q row.id (claimUpdate w t)) := by
  simp [claimNext, h]

theorem claimSeq_cons_none {q : List Job} {w : String} {t : Nat}
    {rest : List (String × Nat)} (h : selectNext q = none) :
    claimSeq q ((w, t) :: rest) = claimSeq q rest := by
  rw [claimSeq, claimNext_eq_none h]

theorem claimSeq_cons_some {q : List Job} {w : String} {t : Nat} {row : Job}
    {rest : List (String × Nat)} (h : selectNext q = some row) :
    claimSeq q ((w, t) :: rest) =
      (claimedJob row w t :: (claimSeq (updateById q row.id (claimUpdate w t)) rest).1,
       (claimSeq (updateById q row.id (claimUpdate w t)) rest).2) := by
  rw [claimSeq, claimNext_eq_some h]

/-- After the claiming UPDATE for id `k`, every row with id `k` is running. -/
theorem updateById_claim_running {q : List Job} {k : Nat} {w : String} {t : Nat} :
    ∀ j ∈ updateById q k (claimUpdate w t), j.id = k → j.status = .running := by
  intro j hj hid
  simp only [updateById, List.mem_map] at hj
  obtain ⟨a, _, ha⟩ := hj
  by_cases hak : a.id = k
  · rw [if_pos hak] at ha
    rw [← ha]
    rfl
  · rw [if_neg hak] at ha
    exact absurd (ha ▸ hid) hak

/-- No pending row of the table carries id `i`. -/
def noPendingWithId (i : Nat) (q : List Job) : Prop :=
  ∀ j ∈ q, j.id = i → j.status ≠ .pending

/-- The claiming UPDATE preserves the absence of a pending row with a given
id: it only rewrites rows into running rows. -/
theorem noPendingWithId_updateById_claim {i : Nat} {q : List Job} {k : Nat}
    {w : String} {t : Nat} (h : noPendingWithId i q) :
    noPendingWithId i (updateById q k (claimUpdate w t)) := by
  intro j hj hid
  simp only [updateById, List.mem_map] at hj
  obtain ⟨a, hmem, ha⟩ := hj
  by_cases hak : a.id = k
  · rw [if_pos hak] at ha
    rw [← ha]
    intro hcon
    cases hcon
  · rw [if_neg hak] at ha
    subst ha
    exact h a hmem hid

/-- If no pending row has id `i`, then no later atomic claim ever returns a
job with id `i`. -/
theorem claimSeq_avoids {i : Nat} :
    ∀ (ws : List (String × Nat)) (q : List Job), noPendingWithId i q →
      ∀ c ∈ (claimSeq q ws).1, c.id ≠ i := by
  intro ws
  induction ws with
  | nil => intro q _ c hc; simp [claimSeq] at hc
  | cons wt rest ih =>
    intro q h c hc
    obtain ⟨w, t⟩ := wt
    cases hsel : selectNext q with
    | none =>
      rw [claimSeq_cons_none hsel] at hc
      exact ih q h c hc
    | some row =>
      rw [claimSeq_cons_some hsel] at hc
      simp only [List.mem_cons] at hc
      cases hc with
      | inl hc =>
        obtain ⟨hmem, hpend⟩ := selectNext_mem_pending hsel
        intro hci
        have : row.id = i := by rw [← hci, hc]; rfl
        exact h row hmem this hpend
      | inr hc =>
        exact ih _ (noPendingWithId_updateById_claim h) c hc

/-- Any sequence of atomic claim_next calls returns pairwise-distinct job
ids: each claim turns the returned id's rows running, and running rows are
never selected again. -/
theorem claimSeq_pairwise_ne :
    ∀ (ws : List (String × Nat)) (q : List Job),
      ((claimSeq q ws).1).Pairwise (fun a b => a.id ≠ b.id) := by
  intro ws
  induction ws with
  | nil => intro q; simp [claimSeq]
  | cons wt rest ih =>
    intro q
    obtain ⟨w, t⟩ := wt
    cases hsel : selectNext q with
    | none => rw [claimSeq_cons_none hsel]; exact ih q
    | some row =>
      rw [claimSeq_cons_some hsel]
      refine List.Pairwise.cons ?_ (ih _)
      intro b hb
      have hnp : noPendingWithId row.id (updateById q row.id (claimUpdate w t)) :=
        fun j hj hid => by rw [updateById_claim_running j hj hid]; intro hcon; cases hcon
      have hb' := claimSeq_avoids rest _ hnp b hb
      intro hcon
      exact hb' (hcon ▸ rfl)

/- ══════════════════════════════════════════════════════════════════════════
   C1: two claim_next calls from different processes, statement-interleaved
   ══════════════════════════════════════════════════════════════════════════ -/

/-- A worker's position inside claim_next: before the SELECT, after the
SELECT (holding the fetched row), or after the UPDATE and the return. -/
inductive ClaimPhase where
  | ready
  | selected (row : Option Job)
  | finished (ret : Option Job)

/-- Two workers in different processes, sharing only the jobs table. -/
structure TwoWorkerState where
  queue : List Job
  w1 : ClaimPhase
  w2 : ClaimPhase

/-- One atomic SQLite statement of claim_next (job_queue.py lines 196-220) by
either of two workers in different processes.  Each statement commits on its
own; the threading.RLock is per JobQueue instance, so it does not serialize
the two processes against each other.  The claiming UPDATE is conditioned
only on the row id — the source has no status guard. -/
inductive ClaimStep (a b : String) (t1 t2 : Nat) :
    TwoWorkerState → TwoWorkerState → Prop
  | sel1 (q r p2) : selectNext q = r →
      ClaimStep a b t1 t2 ⟨q, .ready, p2⟩ ⟨q, .selected r, p2⟩
  | sel2 (q r p1) : selectNext q = r →
      ClaimStep a b t1 t2 ⟨q, p1, .ready⟩ ⟨q, p1, .selected r⟩
  | updNone1 (q p2) :
      ClaimStep a b t1 t2 ⟨q, .selected none, p2⟩ ⟨q, .finished none, p2⟩
  | updNone2 (q p1) :
      ClaimStep a b t1 t2 ⟨q, p1, .selected none⟩ ⟨q, p1, .finished none⟩
  | upd1 (q row p2) :
      ClaimStep a b t1 t2 ⟨q, .selected (some row), p2⟩
        ⟨updateById q row.id (claimUpdate a t1),
         .finished (some (claimedJob row a t1)), p2⟩
  | upd2 (q row p1) :
      ClaimStep a b t1 t2 ⟨q, p1, .selected (some row)⟩
        ⟨updateById q row.id (claimUpdate b t2), p1,
         .finished (some (claimedJob row b t2))⟩

/-- Both claim_next calls returned a job and the jobs agree on their id. -/
def ClaimedTwice (s : TwoWorkerState) : Prop :=
  ∃ j1 j2, s.w1 = .finished (some j1) ∧ s.w2 = .finished (some j2) ∧ j1.id = j2.id

def demoProjectId : String := "proj-demo"

/-- A fresh pending job, as enqueue inserts it (job_queue.py lines 152-178). -/
def demoPendingJob : Job :=
  { id := 1, projectId := demoProjectId, status := .pending, priority := 0, createdAt := 0,
    startedAt := none, completedAt := none, progressPercent := 0,
    progressMessage := waitingMsg, errorMessage := none, workerId := none }

def w1name : String := "worker-1"

def w2name : String := "worker-2"

/-- C1 (counterexample): the claim is false on the code.  claim_next is not
a single conditional write: it is a SELECT followed by an UPDATE conditioned
only on the row id, serialized per process by a threading lock.  For two
workers in different processes there is an interleaving of the statements in
which both claim_next calls return the same job: both SELECT the one pending
job, then both UPDATEs succeed because neither checks the status. -/
theorem claim_next_double_claim_interleaving :
    ¬ (∀ (a b : String), a ≠ b → ∀ (t1 t2 : Nat) (q0 : List Job),
        q0.Pairwise (fun x y => x.id ≠ y.id) →
        ∀ s, Relation.ReflTransGen (ClaimStep a b t1 t2) ⟨q0, .ready, .ready⟩ s →
          ¬ ClaimedTwice s) := by
  intro h
  have hsel : selectNext [demoPendingJob] = some demoPendingJob := rfl
  refine h w1name w2name (by decide) 1 2 [demoPendingJob] (by simp)
      ⟨updateById (updateById [demoPendingJob] demoPendingJob.id (claimUpdate w1name 1))
          demoPendingJob.id (claimUpdate w2name 2),
       .finished (some (claimedJob demoPendingJob w1name 1)),
       .finished (some (claimedJob demoPendingJob w2name 2))⟩ ?_ ?_
  · exact Relation.ReflTransGen.head (ClaimStep.sel1 _ _ _ hsel)
      (Relation.ReflTransGen.head (ClaimStep.sel2 _ _ _ hsel)
        (Relation.ReflTransGen.head (ClaimStep.upd1 _ _ _)
          (Relation.ReflTransGen.head (ClaimStep.upd2 _ _ _) Relation.ReflTransGen.refl)))
  · exact ⟨claimedJob demoPendingJob w1name 1, claimedJob demoPendingJob w2name 2,
      rfl, rfl, rfl⟩

/-- C1 (amended): claim_next is a SELECT followed by an unconditional UPDATE
by row id, serialized only by the per-instance lock, not a single conditional
write.  When claim_next calls execute atomically (all calls serialized by one
JobQueue instance's lock), each successful claim returns a pending job of the
table transitioned to running, and no job is returned by two claims: any
sequence of atomic claims yields pairwise-distinct job ids. -/
theorem claim_next_atomic_no_double_claim :
    (∀ (q : List Job) (ws : List (String × Nat)),
        ((claimSeq q ws).1).Pairwise (fun a b => a.id ≠ b.id)) ∧
    (∀ (q : List Job) (w : String) (t : Nat) (j : Job) (q' : List Job),
        claimNext q w t = (some j, q') →
        (∃ row ∈ q, row.status = .pending ∧ j = claimedJob row w t) ∧
        j.status = .running ∧
        ∀ k ∈ q', k.id = j.id → k.status = .running) := by
  constructor
  · exact fun q ws => claimSeq_pairwise_ne ws q
  · intro q w t j q' h
    cases hsel : selectNext q with
    | none =>
      rw [claimNext_eq_none hsel] at h
      simp only [Prod.mk.injEq] at h
      cases h.1
    | some row =>
      rw [claimNext_eq_some hsel] at h
      simp only [Prod.mk.injEq, Option.some.injEq] at h
      obtain ⟨h1, h2⟩ := h
      obtain ⟨hmem, hpend⟩ := selectNext_mem_pending hsel
      subst h2
      refine ⟨⟨row, hmem, hpend, h1.symm⟩, ?_, ?_⟩
      · rw [← h1]; rfl
      · intro k hk hkid
        refine updateById_claim_running k hk ?_
        rw [hkid, ← h1]
        rfl

/-- C1 witness: one atomic claim on a one-job table returns that job, running,
and leaves the table's row running. -/
theorem claim_next_atomic_no_double_claim_witness :
    (claimedJob demoPendingJob w1name 5).status = .running ∧
    ∀ k ∈ updateById [demoPendingJob] 1 (claimUpdate w1name 5),
      k.id = (claimedJob demoPendingJob w1name 5).id → k.status = .running := by
  have h := claim_next_atomic_no_double_claim.2 [demoPendingJob] w1name 5
    (claimedJob demoPendingJob w1name 5)
    (updateById [demoPendingJob] 1 (claimUpdate w1name 5)) rfl
  exact ⟨h.2.1, h.2.2⟩

/- ══════════════════════════════════════════════════════════════════════════
   C5: terminal transitions
   ══════════════════════════════════════════════════════════════════════════ -/

theorem getJob_updateById {q : List Job} {i : Nat} {f : Job → Job}
    (hf : ∀ j, (f j).id = j.id) :
    getJob (updateById q i f) i = (getJob q i).map f := by
  induction q with
  | nil => rfl
  | cons a rest ih =>
    by_cases hai : a.id = i
    · simp only [getJob, updateById, List.map_cons, if_pos hai]
      rw [List.find?_cons_of_pos _ (by simp [hf a, hai]),
          List.find?_cons_of_pos _ (by simp [hai])]
      rfl
    · simp only [getJob, updateById, List.map_cons, if_neg hai]
      rw [List.find?_cons_of_neg _ (by simp [hai]),
          List.find?_cons_of_neg _ (by simp [hai])]
      exact ih

theorem updateById_same_idem {q : List Job} {i : Nat} {f : Job → Job}
    (hf : ∀ j, f (f j) = f j) (hid : ∀ j, (f j).id = j.id) :
    updateById (updateById q i f) i f = updateById q i f := by
  simp only [updateById, List.map_map]
  refine List.map_congr_left fun j _ => ?_
  by_cases hji : j.id = i <;> simp [hji, hid j, hf j]

def cxTerminalJob : Job :=
  { id := 1, projectId := demoProjectId, status := .cancelled, priority := 0, createdAt := 0,
    startedAt := some 1, completedAt := some 2, progressPercent := 40,
    progressMessage := cancelledMsg, errorMessage := none, workerId := none }

def demoErrMsg : String := "boom"

/-- C5 (counterexample): the claim is false on the code.  complete, fail and
cancel UPDATE by id with no status guard (job_queue.py lines 265-273, 284-292,
329-337), so applying complete to an already-cancelled job rewrites its
record (status becomes completed, a new completed_at is stamped) instead of
leaving it unchanged. -/
theorem terminal_transitions_not_idempotent_on_terminal :
    ¬ (∀ (q : List Job) (i now : Nat) (msg : String),
        (∀ j ∈ q, j.id = i → isTerminal j.status = true) →
        completeJob q i now = q ∧ failJob q i msg now = q ∧ cancelJob q i now = q) := by
  intro h
  have h1 := (h [cxTerminalJob] 1 7 demoErrMsg (by decide)).1
  have h2 : completeJob [cxTerminalJob] 1 7 ≠ [cxTerminalJob] := by decide
  exact h2 h1

/-- C5 (amended): complete, fail and cancel overwrite the job's record
unconditionally, whatever its current status — applying a different terminal
transition to a terminal job changes the stored record.  Only re-applying the
same transition with the same timestamp and message arguments leaves the
record fixed (each transition is idempotent as a function of the table). -/
theorem terminal_transitions_overwrite :
    (∀ (q : List Job) (i now : Nat) (j : Job), getJob q i = some j →
        getJob (completeJob q i now) i = some (completeUpdate now j)) ∧
    (∀ (q : List Job) (i : Nat) (msg : String) (now : Nat) (j : Job), getJob q i = some j →
        getJob (failJob q i msg now) i = some (failUpdate msg now j)) ∧
    (∀ (q : List Job) (i now : Nat) (j : Job), getJob q i = some j →
        getJob (cancelJob q i now) i = some (cancelUpdate now j)) ∧
    (∀ (q : List Job) (i now : Nat),
        completeJob (completeJob q i now) i now = completeJob q i now) ∧
    (∀ (q : List Job) (i : Nat) (msg : String) (now : Nat),
        failJob (failJob q i msg now) i msg now = failJob q i msg now) ∧
    (∀ (q : List Job) (i now : Nat),
        cancelJob (cancelJob q i now) i now = cancelJob q i now) := by
  refine ⟨?_, ?_, ?_, ?_, ?_, ?_⟩
  · intro q i now j hj
    rw [completeJob, getJob_updateById (f := completeUpdate now) (fun _ => rfl), hj]
    rfl
  · intro q i msg now j hj
    rw [failJob, getJob_updateById (f := failUpdate msg now) (fun _ => rfl), hj]
    rfl
  · intro q i now j hj
    rw [cancelJob, getJob_updateById (f := cancelUpdate now) (fun _ => rfl), hj]
    rfl
  · intro q i now
    exact updateById_same_idem (fun _ => rfl) (fun _ => rfl)
  · intro q i msg now
    exact updateById_same_idem (fun _ => rfl) (fun _ => rfl)
  · intro q i now
    exact updateById_same_idem (fun _ => rfl) (fun _ => rfl)

/-- C5 witness: each terminal transition applied to a one-row table holding a
cancelled job yields the unconditionally rewritten record. -/
theorem terminal_transitions_overwrite_witness :
    getJob (completeJob [cxTerminalJob] 1 7) 1 = some (completeUpdate 7 cxTerminalJob) ∧
    getJob (failJob [cxTerminalJob] 1 demoErrMsg 7) 1 = some (failUpdate demoErrMsg 7 cxTerminalJob) ∧
    getJob (cancelJob [cxTerminalJob] 1 7) 1 = some (cancelUpdate 7 cxTerminalJob) :=
  ⟨terminal_transitions_overwrite.1 [cxTerminalJob] 1 7 cxTerminalJob (by decide),
   terminal_transitions_overwrite.2.1 [cxTerminalJob] 1 demoErrMsg 7 cxTerminalJob (by decide),
   terminal_transitions_overwrite.2.2.1 [cxTerminalJob] 1 7 cxTerminalJob (by decide)⟩

/- ══════════════════════════════════════════════════════════════════════════
   C4: worker shutdown (src/core/worker.py)
   ══════════════════════════════════════════════════════════════════════════ -/

/-- Control position of the worker while processing one claimed job: inside
the _run_scan loop (worker.py lines 159-194), at the shutdown check of
_process_job (lines 119-120), about to mark complete (line 123), or returned
with the run loop exiting. -/
inductive WPhase where
  | scanning
  | checking
  | completing
  | stopped
deriving DecidableEq

/-- Worker and claimed-job state: control position, the _shutdown_requested
flag, and the claimed job's status as stored in the queue. -/
structure WState where
  phase : WPhase
  shutdownRequested : Bool
  jobStatus : JStatus
deriving DecidableEq

/-- Small-step semantics of the worker processing one claimed job.
scanPoint / scanExit: the _run_scan loop runs another iteration while the
flag is clear, or exits (budget exhausted, or flag observed at the loop
condition, worker.py line 159) into the check at line 119.  checkStop:
_process_job returns at line 120 with the flag set, touching neither job nor
queue.  checkPass / doComplete: the flag was clear at line 119, so
queue.complete (line 123) marks the job completed.  sigShutdown:
_handle_shutdown (lines 61-69) sets the flag and pauses the current job via
queue.pause; it can fire between any two statements.  stopCall: Worker.stop
(lines 306-308) only sets the flag. -/
inductive WStep : WState → WState → Prop
  | scanPoint (st) : WStep ⟨.scanning, false, st⟩ ⟨.scanning, false, st⟩
  | scanExit (b st) : WStep ⟨.scanning, b, st⟩ ⟨.checking, b, st⟩
  | checkStop (st) : WStep ⟨.checking, true, st⟩ ⟨.stopped, true, st⟩
  | checkPass (st) : WStep ⟨.checking, false, st⟩ ⟨.completing, false, st⟩
  | doComplete (b st) : WStep ⟨.completing, b, st⟩ ⟨.stopped, b, .completed⟩
  | sigShutdown (p b st) : p ≠ .stopped → WStep ⟨p, b, st⟩ ⟨p, true, .paused⟩
  | stopCall (p b st) : p ≠ .stopped → WStep ⟨p, b, st⟩ ⟨p, true, st⟩

/-- The state right after claim_next returned: inside the scan loop, no
shutdown requested, the claimed job running in the queue. -/
def initW : WState := ⟨.scanning, false, .running⟩

/-- Worker states reachable while processing the claimed job. -/
def ReachW (s : WState) : Prop := Relation.ReflTransGen WStep initW s

/-- C4 (counterexample): the claim is false on the code.  Worker.stop only
sets _shutdown_requested; _run_scan then exits its loop and _process_job
returns at the `if self._shutdown_requested: return` check without pausing,
completing or failing the job, so after the worker stops the job is still
stored as running. -/
theorem worker_stop_leaves_job_running :
    ¬ (∀ s, ReachW s → s.phase = .stopped → s.shutdownRequested = true →
        s.jobStatus = .paused) := by
  intro h
  have hr : ReachW ⟨.stopped, true, .running⟩ :=
    Relation.ReflTransGen.head (WStep.stopCall _ _ _ (by decide))
      (Relation.ReflTransGen.head (WStep.scanExit _ _)
        (Relation.ReflTransGen.head (WStep.checkStop _) Relation.ReflTransGen.refl))
  exact absurd (h _ hr rfl rfl) (by decide)

/-- C4 (amended): the signal handler itself pauses the claimed job the
moment it fires, and the shutdown machinery never fails or cancels the job
— in every reachable state the claimed job is running, paused or completed,
and a worker that stops without any shutdown request has completed it.  But
shutdown via Worker.stop() does not pause the job: the worker can exit with
the job still stored as running (see the counterexample). -/
theorem worker_shutdown_pauses_only_on_signal :
    (∀ s : WState, s.phase ≠ .stopped → WStep s ⟨s.phase, true, .paused⟩) ∧
    (∀ s, ReachW s →
      (s.jobStatus = .running ∨ s.jobStatus = .paused ∨ s.jobStatus = .completed) ∧
      (s.phase = .stopped → s.shutdownRequested = false → s.jobStatus = .completed)) := by
  constructor
  · intro s h
    exact WStep.sigShutdown s.phase s.shutdownRequested s.jobStatus h
  · intro s h
    induction h with
    | refl => exact ⟨Or.inl rfl, fun hp => by cases hp⟩
    | tail h1 h2 ih =>
      cases h2 with
      | scanPoint st => exact ih
      | scanExit b st => exact ⟨ih.1, fun hp => by cases hp⟩
      | checkStop st => exact ⟨ih.1, fun _ hb => by cases hb⟩
      | checkPass st => exact ⟨ih.1, fun hp => by cases hp⟩
      | doComplete b st => exact ⟨Or.inr (Or.inr rfl), fun _ _ => rfl⟩
      | sigShutdown p b st hne =>
        exact ⟨Or.inr (Or.inl rfl), fun hp => absurd hp hne⟩
      | stopCall p b st hne => exact ⟨ih.1, fun hp => absurd hp hne⟩

/-- C4 witness: the signal step from the initial state pauses the job, and
the no-shutdown run reaches the stopped state with the job completed. -/
theorem worker_shutdown_pauses_only_on_signal_witness :
    WStep initW ⟨.scanning, true, .paused⟩ ∧
    ((JStatus.completed = .running ∨ JStatus.completed = .paused ∨
        JStatus.completed = .completed) ∧
      (WPhase.stopped = .stopped → false = false → JStatus.completed = .completed)) := by
  constructor
  · exact worker_shutdown_pauses_only_on_signal.1 initW (by decide)
  · have hr : ReachW ⟨.stopped, false, .completed⟩ :=
      Relation.ReflTransGen.head (WStep.scanExit _ _)
        (Relation.ReflTransGen.head (WStep.checkPass _)
          (Relation.ReflTransGen.head (WStep.doComplete _ _) Relation.ReflTransGen.refl))
    exact worker_shutdown_pauses_only_on_signal.2 _ hr

/- ══════════════════════════════════════════════════════════════════════════
   Online learner (src/inference/online_learner.py, class OnlineBrain)
   ══════════════════════════════════════════════════════════════════════════ -/

/-- The River pipeline is an external library, so it is abstracted as an
opaque model type together with the two operations OnlineBrain.learn calls
on it; predict_one may return None. -/
structure ModelOps (M : Type) (F : Type) where
  predictOne : M → F → Option ℚ
  learnOne : M → F → ℚ → M

/-- The OnlineBrain fields that learn and __init__ touch (online_learner.py
lines 110-139).  The rolling MAE/R²/RMSE metrics, the learning-curve deque,
the ADWIN drift detector (external library state) and wall-clock bookkeeping
are not modelled. -/
structure BrainState (M : Type) where
  model : M
  errorEma : ℚ
  firstSample : Bool
  samplesLearned : Nat
  highSurpriseEvents : Nat

/-- Smoothing factor for the error EMA (line 82). -/
def ERROR_EMA_ALPHA : ℚ := 1/10

/-- Error above this multiple of the EMA is a surprise (line 83). -/
def SURPRISE_MULTIPLIER : ℚ := 2

/-- The tuple OnlineBrain.learn returns, together with the mutated state. -/
structure LearnOutput (M : Type) where
  prediction : ℚ
  error : ℚ
  isSurprise : Bool
  state : BrainState M

/-- OnlineBrain.learn (lines 239-337): predict with the current model
(None becomes 0.0), then update the model weights, compute
error = |target − prediction|, update the error EMA (initialized to the
first observed error), and flag a surprise when the EMA is positive and the
error exceeds SURPRISE_MULTIPLIER times the just-updated EMA — the source
compares against the EMA after this call's update (lines 283-294). -/
def learn {M F : Type} (ops : ModelOps M F) (s : BrainState M) (features : F)
    (target : ℚ) : LearnOutput M :=
  let prediction := (ops.predictOne s.model features).getD 0
  let model' := ops.learnOne s.model features target
  let error := |target - prediction|
  let ema' := if s.firstSample then error
              else ERROR_EMA_ALPHA * error + (1 - ERROR_EMA_ALPHA) * s.errorEma
  let isSurprise := if 0 < ema' then decide (SURPRISE_MULTIPLIER * ema' < error) else false
  { prediction := prediction
    error := error
    isSurprise := isSurprise
    state :=
      { model := model'
        errorEma := ema'
        firstSample := false
        samplesLearned := s.samplesLearned + 1
        highSurpriseEvents := s.highSurpriseEvents + (if isSurprise then 1 else 0) } }

/-- C3: learn's returned prediction is computed from the model state before
any weight update (it is the pre-state model's prediction), the post-state
model is the pre-state model with this sample learned afterwards, and the
returned error equals |target − prior prediction|. -/
theorem learn_predicts_before_update {M F : Type} (ops : ModelOps M F)
    (s : BrainState M) (features : F) (target : ℚ) :
    (learn ops s features target).prediction = (ops.predictOne s.model features).getD 0 ∧
    (learn ops s features target).error =
      |target - (learn ops s features target).prediction| ∧
    (learn ops s features target).state.model = ops.learnOne s.model features target :=
  ⟨rfl, rfl, rfl⟩

/-- A trivial backend with constant zero prediction, for scripting error
sequences (the EMA logic is independent of the backend). -/
def constZeroOps : ModelOps Unit Unit :=
  { predictOne := fun _ _ => some 0, learnOne := fun m _ _ => m }

/-- A freshly initialized learner state (lines 128-137). -/
def freshBrain : BrainState Unit :=
  { model := (), errorEma := 0, firstSample := true, samplesLearned := 0,
    highSurpriseEvents := 0 }

/-- The learner state after one learn call with error 1: the EMA is
initialized to the first observed error, 1. -/
def brainAfterOne : BrainState Unit := (learn constZeroOps freshBrain () 1).state

/-- The same state written out. -/
def scriptState : BrainState Unit :=
  { model := (), errorEma := 1, firstSample := false, samplesLearned := 1,
    highSurpriseEvents := 0 }

theorem brainAfterOne_eq : brainAfterOne = scriptState := by
  norm_num [brainAfterOne, learn, freshBrain, constZeroOps, scriptState,
    ERROR_EMA_ALPHA, SURPRISE_MULTIPLIER]

/-- C2 (counterexample): the claim is false on the code.  The source updates
_error_ema first (lines 283-291) and only then evaluates the surprise test
against the already-updated EMA (line 294).  Scripted sequence: first error
1 (EMA becomes 1), second error 2.1; against the pre-call EMA the test reads
2.1 > 2·1 and would report a surprise, but the code compares
2.1 > 2·(0.1·2.1 + 0.9·1) = 2.22 and reports none. -/
theorem surprise_not_vs_pre_call_ema :
    ¬ (∀ (M F : Type) (ops : ModelOps M F) (s : BrainState M) (f : F) (t : ℚ),
        ((learn ops s f t).isSurprise = true ↔
          SURPRISE_MULTIPLIER * s.errorEma < (learn ops s f t).error)) := by
  intro h
  have hpre := h Unit Unit constZeroOps brainAfterOne () (21/10)
  rw [brainAfterOne_eq] at hpre
  have herr : (learn constZeroOps scriptState () (21/10)).error = 21/10 := by
    norm_num [learn, constZeroOps]
  have habs : |(21/10 : ℚ)| = 21/10 := abs_of_nonneg (by norm_num)
  have hsur : (learn constZeroOps scriptState () (21/10)).isSurprise = false := by
    norm_num [learn, constZeroOps, scriptState, ERROR_EMA_ALPHA, SURPRISE_MULTIPLIER, habs]
  have hmpr := hpre.mpr (by rw [herr]; norm_num [scriptState, SURPRISE_MULTIPLIER])
  rw [hsur] at hmpr
  cases hmpr

theorem surprise_ite_iff (e err : ℚ) :
    (if 0 < e then decide (SURPRISE_MULTIPLIER * e < err) else false) = true ↔
      (0 < e ∧ SURPRISE_MULTIPLIER * e < err) := by
  split_ifs with h0
  · simp [h0]
  · simp [h0]

/-- C2 (amended): is_surprise is evaluated against the post-update EMA: it
is true exactly when the EMA updated by this very call is positive and the
error exceeds SURPRISE_MULTIPLIER (2.0) times that updated EMA. -/
theorem surprise_iff_exceeds_post_update_ema {M F : Type} (ops : ModelOps M F)
    (s : BrainState M) (f : F) (t : ℚ) :
    (learn ops s f t).isSurprise = true ↔
      (0 < (learn ops s f t).state.errorEma ∧
        SURPRISE_MULTIPLIER * (learn ops s f t).state.errorEma <
          (learn ops s f t).error) :=
  surprise_ite_iff _ _

/- ══════════════════════════════════════════════════════════════════════════
   C7: checkpoint restore (__init__ / _load_model)
   ══════════════════════════════════════════════════════════════════════════ -/

/-- The checkpoint state dictionary as written by OnlineBrain.save (lines
200-212) and read back by _load_model (lines 168-186); the drift-detector
state, feature-name list and timestamp entries are not modelled. -/
structure Checkpoint (M : Type) where
  model : M
  samplesLearned : Nat
  errorEma : ℚ

/-- What the load phase leaves in (model, _error_ema, _samples_learned):
_load_model (lines 168-186) restores them from the checkpoint; a missing or
unreadable checkpoint falls back to a fresh model with the defaults. -/
def loadModel {M : Type} (fresh : M) (ckpt : Option (Checkpoint M)) : M × ℚ × Nat :=
  match ckpt with
  | some c => (c.model, c.errorEma, c.samplesLearned)
  | none => (fresh, 0, 0)

/-- OnlineBrain.__init__ (lines 86-141): run _load_model or
_init_fresh_model (lines 116-119), THEN execute the field initializations of
lines 121-139, which assign _error_ema = 0.0, _first_sample = True and
_samples_learned = 0 after the load has completed. -/
def ombInit {M : Type} (fresh : M) (loadExisting : Bool)
    (ckpt : Option (Checkpoint M)) : BrainState M :=
  let loaded := if loadExisting then loadModel fresh ckpt else (fresh, 0, 0)
  { model := loaded.1
    errorEma := 0
    firstSample := true
    samplesLearned := 0
    highSurpriseEvents := 0 }

/-- C7: the claim states the intent and the code drops it.  _load_model does
restore error_ema (the load phase of a checkpoint with error_ema = 5 carries
5), but __init__ re-initializes _error_ema to 0.0 (and _samples_learned to
0) after the load, so every restored learner starts with EMA 0, not the
checkpointed value. -/
theorem restored_ema_clobbered_by_init :
    (∀ (M : Type) (fresh : M) (c : Checkpoint M),
      (ombInit fresh true (some c)).errorEma = 0 ∧
      (ombInit fresh true (some c)).samplesLearned = 0) ∧
    (loadModel () (some ⟨(), 7, 5⟩)).2.1 = 5 ∧
    (ombInit () true (some ⟨(), 7, 5⟩)).errorEma = 0 ∧ (5 : ℚ) ≠ 0 :=
  ⟨fun _ _ _ => ⟨rfl, rfl⟩, rfl, rfl, by norm_num⟩

/- ══════════════════════════════════════════════════════════════════════════
   Event buffer (src/core/event_buffer.py, class EventBuffer)
   ══════════════════════════════════════════════════════════════════════════ -/

/-- One row of the quantum_events table (QuantumEvent, event_buffer.py lines
23-36).  mismatch_types is stored comma-joined and modelled as the list of
kind strings; the features_json / trace_json payloads are opaque and not
modelled. -/
structure BufEvent where
  timestamp : ℚ
  lat : ℚ
  lon : ℚ
  utilityScore : ℚ
  mlError : ℚ
  isSurprise : Bool
  mismatchTypes : List String
  mismatchCount : Nat
  mismatchSeverityMax : ℚ

/-- Retention bound (line 59). -/
def MAX_EVENTS : Nat := 1000

/-- Pruning slack (line 62). -/
def PRUNE_BATCH_SIZE : Nat := 100

/-- Rows ordered oldest-first, i.e. ORDER BY timestamp ASC. -/
def tsLE (a b : BufEvent) : Prop := a.timestamp ≤ b.timestamp

instance : DecidableRel tsLE :=
  fun a b => inferInstanceAs (Decidable (a.timestamp ≤ b.timestamp))

instance : IsTotal BufEvent tsLE := ⟨fun a b => le_total a.timestamp b.timestamp⟩

instance : IsTrans BufEvent tsLE := ⟨fun _ _ _ hab hbc => le_trans hab hbc⟩

/-- The table's rows sorted oldest-first (stable, ties keep rowid order). -/
def sortByTimestamp (es : List BufEvent) : List BufEvent :=
  List.insertionSort tsLE es

/-- _maybe_prune past the 10-second throttle (lines 305-321): count the
rows; when count > MAX_EVENTS + PRUNE_BATCH_SIZE, delete the
count − MAX_EVENTS oldest rows (`DELETE ... WHERE id IN (SELECT id ORDER BY
timestamp ASC LIMIT delete_count)`).  The table is modelled by its rows
listed oldest-first, so deleting the delete_count oldest leaves the drop of
the sorted list. -/
def prune (es : List BufEvent) : List BufEvent :=
  if es.length > MAX_EVENTS + PRUNE_BATCH_SIZE then
    (sortByTimestamp es).drop (es.length - MAX_EVENTS)
  else es

/-- C6: inserting M > MAX_EVENTS rows and then pruning leaves at most
MAX_EVENTS + PRUNE_BATCH_SIZE rows; when the prune fires (M exceeds the
slack too) it deletes exactly the M − MAX_EVENTS oldest-timestamp rows:
every deleted row's timestamp is at most every survivor's, and the
survivors are the MAX_EVENTS most recent rows in timestamp order. -/
theorem prune_bounds_and_oldest_first (es : List BufEvent)
    (hM : es.length > MAX_EVENTS) :
    (prune es).length ≤ MAX_EVENTS + PRUNE_BATCH_SIZE ∧
    (es.length > MAX_EVENTS + PRUNE_BATCH_SIZE →
      prune es = (sortByTimestamp es).drop (es.length - MAX_EVENTS) ∧
      (prune es).length = MAX_EVENTS ∧
      ∀ d ∈ (sortByTimestamp es).take (es.length - MAX_EVENTS),
        ∀ k ∈ prune es, d.timestamp ≤ k.timestamp) := by
  by_cases hgt : es.length > MAX_EVENTS + PRUNE_BATCH_SIZE
  · have hle : MAX_EVENTS ≤ es.length := le_of_lt hM
    have hpr : prune es = (sortByTimestamp es).drop (es.length - MAX_EVENTS) := by
      rw [prune, if_pos hgt]
    have hlen : (prune es).length = MAX_EVENTS := by
      rw [hpr, List.length_drop, sortByTimestamp, List.length_insertionSort,
        Nat.sub_sub_self hle]
    refine ⟨by rw [hlen]; exact Nat.le_add_right _ _, fun _ => ⟨hpr, hlen, ?_⟩⟩
    intro d hd k hk
    rw [hpr] at hk
    exact (List.sorted_insertionSort tsLE es).rel_of_mem_take_of_mem_drop hd hk
  · have hpr : prune es = es := by rw [prune, if_neg hgt]
    exact ⟨by rw [hpr]; exact Nat.le_of_not_lt hgt, fun hc => absurd hc hgt⟩

/-- A blank row used to instantiate C6. -/
def e0 : BufEvent :=
  { timestamp := 0, lat := 0, lon := 0, utilityScore := 0, mlError := 0,
    isSurprise := false, mismatchTypes := [], mismatchCount := 0,
    mismatchSeverityMax := 0 }

/-- C6 witness: a table of 1001 rows exceeds MAX_EVENTS and prunes to at
most MAX_EVENTS + PRUNE_BATCH_SIZE rows. -/
theorem prune_bounds_and_oldest_first_witness :
    (List.replicate 1001 e0).length > MAX_EVENTS ∧
    (prune (List.replicate 1001 e0)).length ≤ MAX_EVENTS + PRUNE_BATCH_SIZE := by
  have h1 : (List.replicate 1001 e0).length > MAX_EVENTS := by
    rw [List.length_replicate, MAX_EVENTS]
    norm_num
  exact ⟨h1, (prune_bounds_and_oldest_first _ h1).1⟩

/- ══════════════════════════════════════════════════════════════════════════
   C10: insert_event
   ══════════════════════════════════════════════════════════════════════════ -/

/-- A caller-supplied mismatch as insert_event reads it (lines 210-216):
a mismatch_type tag and a severity. -/
structure MismatchIn where
  mismatchType : String
  severity : ℚ

/-- The QuantumEvent record insert_event builds and stores (lines 201-230).
The stored is_surprise flag is the caller's quantum_data flag OR'd with
ml_error > 1.0 (line 204). -/
def insertEventRecord (now la lo : ℚ) (callerSurprise : Bool) (score mlError : ℚ)
    (mismatches : List MismatchIn) : BufEvent :=
  { timestamp := now
    lat := la
    lon := lo
    utilityScore := score
    mlError := mlError
    isSurprise := callerSurprise || decide (1 < mlError)
    mismatchTypes := mismatches.map (fun m => m.mismatchType)
    mismatchCount := mismatches.length
    mismatchSeverityMax := mismatches.foldl (fun acc m => max acc m.severity) 0 }

/-- C10: the stored event's is_surprise flag is true whenever ml_error >
1.0, whatever the caller's flag says; in particular an event inserted with
the learner's flag false and ml_error 2 is stored as a surprise. -/
theorem inserted_surprise_overrides_caller
    (now la lo : ℚ) (callerSurprise : Bool) (score mlError : ℚ)
    (ms : List MismatchIn) (h : 1 < mlError) :
    (insertEventRecord now la lo callerSurprise score mlError ms).isSurprise = true ∧
    (insertEventRecord 0 0 0 false 0 2 []).isSurprise = true := by
  constructor
  · show (callerSurprise || decide (1 < mlError)) = true
    simp [h]
  · show (false || decide ((1 : ℚ) < 2)) = true
    norm_num

/-- C10 witness: ml_error 2 exceeds the 1.0 threshold and the stored flag is
true although the caller's flag was false. -/
theorem inserted_surprise_overrides_caller_witness :
    (1 : ℚ) < 2 ∧ (insertEventRecord 0 0 0 false 0 2 []).isSurprise = true :=
  ⟨by norm_num, (inserted_surprise_overrides_caller 0 0 0 false 0 2 [] (by norm_num)).1⟩

/- ══════════════════════════════════════════════════════════════════════════
   C8: get_mismatch_summary
   ══════════════════════════════════════════════════════════════════════════ -/

/-- The LIMIT used by the summary queries (lines 433 and 450). -/
def MISMATCH_RECENT_LIMIT : Nat := 100

/-- Rows ordered newest-first, i.e. ORDER BY timestamp DESC. -/
def tsGE (a b : BufEvent) : Prop := b.timestamp ≤ a.timestamp

instance : DecidableRel tsGE :=
  fun a b => inferInstanceAs (Decidable (b.timestamp ≤ a.timestamp))

/-- The table's rows sorted newest-first (stable). -/
def sortByTimestampDesc (es : List BufEvent) : List BufEvent :=
  List.insertionSort tsGE es

/-- Total occurrences of kind `k` across the mismatch_types lists of the
given rows (the python loop at lines 438-443; detector kinds are already
lowercase, so the strip().lower() normalization is the identity here). -/
def countKind (rows : List BufEvent) (k : String) : Nat :=
  (rows.map (fun e => e.mismatchTypes.count k)).sum

/-- The rows the per-kind aggregation scans (lines 428-434): the 100 most
recent rows among those whose mismatch_types string is nonempty. -/
def recentMismatchRows (es : List BufEvent) : List BufEvent :=
  (sortByTimestampDesc (es.filter fun e => !e.mismatchTypes.isEmpty)).take
    MISMATCH_RECENT_LIMIT

/-- The dictionary get_mismatch_summary returns (line 436). -/
structure MismatchSummary where
  slope : Nat
  zoning : Nat
  flood : Nat
  utility : Nat
  surprise : Nat
deriving DecidableEq

def kindSlope : String := "slope"

def kindZoning : String := "zoning"

def kindFlood : String := "flood"

def kindUtility : String := "utility"

/-- get_mismatch_summary past the 5-second cache (lines 424-457): per-kind
counts over the 100 most recent mismatch-bearing rows, and the surprise
entry from `SELECT COUNT(*) FROM quantum_events WHERE is_surprise = 1 ORDER
BY timestamp DESC LIMIT 100` — ORDER BY and LIMIT apply to the single
aggregate output row, not to the rows being counted, so this counts every
surprise row in the table. -/
def getMismatchSummary (es : List BufEvent) : MismatchSummary :=
  { slope := countKind (recentMismatchRows es) kindSlope
    zoning := countKind (recentMismatchRows es) kindZoning
    flood := countKind (recentMismatchRows es) kindFlood
    utility := countKind (recentMismatchRows es) kindUtility
    surprise := es.countP fun e => e.isSurprise }

/-- A table of 101 surprise rows with distinct timestamps and no
mismatches. -/
def surpriseRows : List BufEvent :=
  (List.range 101).map fun i =>
    { timestamp := (i : Nat), lat := 0, lon := 0, utilityScore := 0, mlError := 2,
      isSurprise := true, mismatchTypes := [], mismatchCount := 0,
      mismatchSeverityMax := 0 }

/-- C8: the claim matches the docstring but not the code.  On a table of 101
surprise rows the summary's surprise entry is 101 — more rows than the 100
most recent — because the LIMIT in the COUNT(*) query limits the single
aggregate row instead of the rows counted. -/
theorem mismatch_summary_surprise_counts_all_rows :
    (getMismatchSummary surpriseRows).surprise = 101 ∧
    101 > MISMATCH_RECENT_LIMIT := by
  constructor
  · show (surpriseRows.countP fun e => e.isSurprise) = 101
    have hlen : surpriseRows.length = 101 := by
      rw [surpriseRows, List.length_map, List.length_range]
    rw [← hlen]
    refine List.countP_eq_length.mpr ?_
    intro a ha
    rw [surpriseRows] at ha
    obtain ⟨i, _, rfl⟩ := List.mem_map.mp ha
    rfl
  · rw [MISMATCH_RECENT_LIMIT]
    norm_num

/- ══════════════════════════════════════════════════════════════════════════
   Mismatch detector (src/inference/mismatch_detector.py)
   ══════════════════════════════════════════════════════════════════════════ -/

/-- The first list starts the second (character-by-character). -/
def leadsList : List Char → List Char → Bool
  | [], _ => true
  | _ :: _, [] => false
  | a :: as, b :: bs => a == b && leadsList as bs

/-- Substring containment, the python `'M-' in zoning_code` test; zoning
codes are modelled as character lists. -/
def substrIn (needle : List Char) : List Char → Bool
  | [] => leadsList needle []
  | c :: rest => leadsList needle (c :: rest) || substrIn needle rest

/-- The GIS values the detectors read for one location, as returned by the
gis_loader queries (get_lidar_elevation, get_zoning_history,
get_utility_proximity, get_climate_risk); the detectors read them with .get
defaults, modelled here as the keys being present. -/
structure GisData where
  slopePercent : ℚ
  currentZoning : List Char
  distanceToWaterMainFt : ℚ
  distanceToSewerFt : ℚ
  elevationFt : ℚ
  floodRiskScore : ℚ

/-- Detector collaborators: the gis_loader when present, and — when both
the predictor and the analyzer are present — the (ml_score, rule_score)
pair they produce for the scanned quantum. -/
structure DetectorEnv where
  gis : Option GisData
  mlRule : Option (ℚ × ℚ)

/-- Max slope percent for easy construction (line 40). -/
def SLOPE_BUILDABLE_MAX : ℚ := 15

/-- Min slope percent for difficult construction (line 41). -/
def SLOPE_DIFFICULT_MIN : ℚ := 25

/-- Score difference that flags a model-vs-rule mismatch (line 42). -/
def UTILITY_MISMATCH_THRESHOLD : ℚ := 5/2

/-- A detected mismatch: kind tag and severity (Mismatch, lines 12-23); the
coordinates and the descriptive string fields are not modelled. -/
structure MismatchRec where
  mismatchType : String
  severity : ℚ
deriving DecidableEq

def zM : List Char := ['M', '-']

def zC : List Char := ['C', '-']

def zR : List Char := ['R', '-']

def zA : List Char := ['A', '-']

/-- detect_slope_mismatch (lines 62-113): industrial/commercial zoning with
slope > 25 gives severity min(1, (slope − 25)/20); otherwise residential
zoning with slope > 30 gives severity min(1, (slope − 30)/15). -/
def detectSlopeMismatch (env : DetectorEnv) : Option MismatchRec :=
  match env.gis with
  | none => none
  | some g =>
    let isCommercialIndustrial :=
      substrIn zM g.currentZoning || substrIn zC g.currentZoning
    let isResidential := substrIn zR g.currentZoning
    if isCommercialIndustrial && decide (SLOPE_DIFFICULT_MIN < g.slopePercent) then
      some { mismatchType := kindSlope,
             severity := min 1 ((g.slopePercent - SLOPE_DIFFICULT_MIN) / 20) }
    else if isResidential && decide ((30 : ℚ) < g.slopePercent) then
      some { mismatchType := kindSlope,
             severity := min 1 ((g.slopePercent - 30) / 15) }
    else none

/-- detect_zoning_opportunity (lines 115-152): flat, utility-served,
agriculturally zoned land gives a fixed severity 0.7 flag. -/
def detectZoningOpportunity (env : DetectorEnv) : Option MismatchRec :=
  match env.gis with
  | none => none
  | some g =>
    let isFlat := decide (g.slopePercent < SLOPE_BUILDABLE_MAX)
    let hasUtilities :=
      decide (g.distanceToWaterMainFt < 500) && decide (g.distanceToSewerFt < 500)
    let isRestricted := substrIn zA g.currentZoning
    if isFlat && hasUtilities && isRestricted then
      some { mismatchType := kindZoning, severity := 7/10 }
    else none

/-- detect_utility_mismatch (lines 154-187): requires both the predictor
and the analyzer; a gap above the threshold gives severity min(1, gap/5). -/
def detectUtilityMismatch (env : DetectorEnv) : Option MismatchRec :=
  match env.mlRule with
  | none => none
  | some p =>
    if UTILITY_MISMATCH_THRESHOLD < |p.1 - p.2| then
      some { mismatchType := kindUtility, severity := min 1 (|p.1 - p.2| / 5) }
    else none

/-- detect_flood_terrain_mismatch (lines 189-219): low elevation with a low
flood rating gives a fixed severity 0.6 flag. -/
def detectFloodTerrainMismatch (env : DetectorEnv) : Option MismatchRec :=
  match env.gis with
  | none => none
  | some g =>
    if decide (g.elevationFt < 30) && decide (g.floodRiskScore < 4) then
      some { mismatchType := kindFlood, severity := 3/5 }
    else none

/-- scan_quantum (lines 221-249): run the four detectors in order and
collect the hits; a raising detector is logged and skipped — the embedded
detectors are total, so none is skipped. -/
def scanQuantum (env : DetectorEnv) : List MismatchRec :=
  [detectSlopeMismatch env, detectZoningOpportunity env,
   detectUtilityMismatch env, detectFloodTerrainMismatch env].filterMap id

theorem detectSlope_commInd {env : DetectorEnv} {g : GisData}
    (hg : env.gis = some g)
    (hci : (substrIn zM g.currentZoning || substrIn zC g.currentZoning) = true)
    (hs : SLOPE_DIFFICULT_MIN < g.slopePercent) :
    detectSlopeMismatch env =
      some { mismatchType := kindSlope,
             severity := min 1 ((g.slopePercent - SLOPE_DIFFICULT_MIN) / 20) } := by
  simp only [detectSlopeMismatch, hg]
  rw [if_pos (by rw [hci, decide_eq_true hs]; rfl)]

theorem detectSlope_none_clean_residential {env : DetectorEnv} {g : GisData}
    (hg : env.gis = some g)
    (hm : substrIn zM g.currentZoning = false) (hc : substrIn zC g.currentZoning = false)
    (hs : ¬((30 : ℚ) < g.slopePercent)) :
    detectSlopeMismatch env = none := by
  simp only [detectSlopeMismatch, hg]
  rw [if_neg (by simp [hm, hc]), if_neg (by simp [hs])]

theorem detectZoning_none_of_steep {env : DetectorEnv} {g : GisData}
    (hg : env.gis = some g) (hs : ¬(g.slopePercent < SLOPE_BUILDABLE_MAX)) :
    detectZoningOpportunity env = none := by
  simp only [detectZoningOpportunity, hg]
  simp [hs]

theorem detectZoning_none_of_not_agric {env : DetectorEnv} {g : GisData}
    (hg : env.gis = some g) (ha : substrIn zA g.currentZoning = false) :
    detectZoningOpportunity env = none := by
  simp only [detectZoningOpportunity, hg]
  simp [ha]

theorem detectUtility_none {env : DetectorEnv}
    (h : ∀ ml rb, env.mlRule = some (ml, rb) → |ml - rb| ≤ UTILITY_MISMATCH_THRESHOLD) :
    detectUtilityMismatch env = none := by
  cases hml : env.mlRule with
  | none => simp [detectUtilityMismatch, hml]
  | some p =>
    obtain ⟨ml, rb⟩ := p
    have hle := h ml rb hml
    simp [detectUtilityMismatch, hml, not_lt.mpr hle]

theorem detectFlood_none {env : DetectorEnv} {g : GisData}
    (hg : env.gis = some g) (h : ¬(g.elevationFt < 30 ∧ g.floodRiskScore < 4)) :
    detectFloodTerrainMismatch env = none := by
  simp only [detectFloodTerrainMismatch, hg]
  rcases not_and_or.mp h with h1 | h1 <;> simp [h1]

/-- C9: a sample with industrial or commercial zoning and 30% slope (other
signals benign: no low-elevation/low-flood-rating combination, no
model-vs-rule gap above threshold) yields exactly one mismatch from the
whole scan, of kind slope, with severity 1/4 ∈ (0,1]; in general the slope
severity for industrial/commercial parcels above 25% slope is
min(1, (slope − 25)/20), linear in the excess slope and capped at 1; and
flat residential land with no flood or coastal flags yields no mismatches
at all. -/
theorem scan_industrial_slope_and_clean_residential :
    (∀ (env : DetectorEnv) (g : GisData), env.gis = some g →
      (substrIn zM g.currentZoning || substrIn zC g.currentZoning) = true →
      g.slopePercent = 30 →
      ¬(g.elevationFt < 30 ∧ g.floodRiskScore < 4) →
      (∀ ml rb, env.mlRule = some (ml, rb) → |ml - rb| ≤ UTILITY_MISMATCH_THRESHOLD) →
      scanQuantum env = [{ mismatchType := kindSlope, severity := 1/4 }] ∧
        (0 : ℚ) < 1/4 ∧ (1/4 : ℚ) ≤ 1) ∧
    (∀ (env : DetectorEnv) (g : GisData), env.gis = some g →
      (substrIn zM g.currentZoning || substrIn zC g.currentZoning) = true →
      SLOPE_DIFFICULT_MIN < g.slopePercent →
      detectSlopeMismatch env =
        some { mismatchType := kindSlope,
               severity := min 1 ((g.slopePercent - SLOPE_DIFFICULT_MIN) / 20) }) ∧
    (∀ (env : DetectorEnv) (g : GisData), env.gis = some g →
      substrIn zR g.currentZoning = true →
      substrIn zM g.currentZoning = false → substrIn zC g.currentZoning = false →
      substrIn zA g.currentZoning = false →
      g.slopePercent < SLOPE_BUILDABLE_MAX →
      ¬(g.elevationFt < 30 ∧ g.floodRiskScore < 4) →
      (∀ ml rb, env.mlRule = some (ml, rb) → |ml - rb| ≤ UTILITY_MISMATCH_THRESHOLD) →
      scanQuantum env = []) := by
  refine ⟨?_, ?_, ?_⟩
  · intro env g hg hci hs hfl hml
    have h30 : SLOPE_DIFFICULT_MIN < g.slopePercent := by
      rw [hs, SLOPE_DIFFICULT_MIN]
      norm_num
    have hsev : min (1 : ℚ) ((g.slopePercent - SLOPE_DIFFICULT_MIN) / 20) = 1/4 := by
      rw [hs, SLOPE_DIFFICULT_MIN,
        show ((30 : ℚ) - 25) / 20 = 1/4 by norm_num,
        min_eq_right (by norm_num : (1/4 : ℚ) ≤ 1)]
    refine ⟨?_, by norm_num, by norm_num⟩
    rw [scanQuantum, detectSlope_commInd hg hci h30, hsev,
      detectZoning_none_of_steep hg (by rw [hs, SLOPE_BUILDABLE_MAX]; norm_num),
      detectUtility_none hml, detectFlood_none hg hfl]
    rfl
  · intro env g hg hci hs
    exact detectSlope_commInd hg hci hs
  · intro env g hg hr hm hc ha hflat hfl hml
    have hs30 : ¬((30 : ℚ) < g.slopePercent) := by
      intro hcon
      have h' : (30 : ℚ) < SLOPE_BUILDABLE_MAX := lt_trans hcon hflat
      rw [SLOPE_BUILDABLE_MAX] at h'
      norm_num at h'
    rw [scanQuantum, detectSlope_none_clean_residential hg hm hc hs30,
      detectZoning_none_of_not_agric hg ha, detectUtility_none hml,
      detectFlood_none hg hfl]
    rfl

/-- An industrial parcel on a 30% slope, otherwise benign. -/
def gIndustrial : GisData :=
  { slopePercent := 30, currentZoning := ['M', '-', '1'], distanceToWaterMainFt := 9999,
    distanceToSewerFt := 9999, elevationFt := 100, floodRiskScore := 5 }

/-- Flat residential land with no flood or coastal flags. -/
def gResidentialFlat : GisData :=
  { slopePercent := 5, currentZoning := ['R', '-', '1'], distanceToWaterMainFt := 9999,
    distanceToSewerFt := 9999, elevationFt := 100, floodRiskScore := 5 }

def envIndustrial : DetectorEnv := { gis := some gIndustrial, mlRule := none }

def envResidentialFlat : DetectorEnv := { gis := some gResidentialFlat, mlRule := none }

/-- C9 witness: the concrete industrial sample yields exactly the slope
mismatch with severity 1/4 and the concrete flat residential sample yields
none. -/
theorem scan_industrial_slope_and_clean_residential_witness :
    scanQuantum envIndustrial = [{ mismatchType := kindSlope, severity := 1/4 }] ∧
    scanQuantum envResidentialFlat = [] := by
  constructor
  · exact (scan_industrial_slope_and_clean_residential.1 envIndustrial gIndustrial rfl
      (by decide) rfl (by norm_num [gIndustrial])
      (fun ml rb h => by simp [envIndustrial] at h)).1
  · exact scan_industrial_slope_and_clean_residential.2.2 envResidentialFlat
      gResidentialFlat rfl (by decide) (by decide) (by decide) (by decide)
      (by norm_num [gResidentialFlat, SLOPE_BUILDABLE_MAX])
      (by norm_num [gResidentialFlat])
      (fun ml rb h => by simp [envResidentialFlat] at h)

end Spec2Proof
